import Mathlib

/-!
Verification of the Imara triage pipeline against its specification.

The Python sources are shallowly embedded: strings are lists of characters
(`Str`), Python's truthiness, `str.upper`/`lower`/`strip` (ASCII range, which
covers every table entry and input used below), `in` (contiguous substring)
and dict lookups are modelled explicitly, and fallible calls to upstream AI
clients enter the embedded functions as `Except` values.  Machine hashing
(`hashlib.sha256`) is implemented bit-faithfully over byte lists encoded via
UTF-8, with 32-bit words as `Nat` reduced modulo `2 ^ 32`.
-/

namespace Imara

/-- Strings modelled as lists of characters, mirroring Python's sequence view. -/
abbrev Str := List Char

/-- ASCII uppercase of one character, as Python's `str.upper` acts on ASCII. -/
def pyCharUpper (c : Char) : Char :=
  if 'a' ≤ c ∧ c ≤ 'z' then Char.ofNat (c.toNat - 32) else c

/-- ASCII lowercase of one character, as Python's `str.lower` acts on ASCII. -/
def pyCharLower (c : Char) : Char :=
  if 'A' ≤ c ∧ c ≤ 'Z' then Char.ofNat (c.toNat + 32) else c

/-- Python `str.upper` (ASCII range). -/
def pyUpper (s : Str) : Str := s.map pyCharUpper

/-- Python `str.lower` (ASCII range). -/
def pyLower (s : Str) : Str := s.map pyCharLower

/-- The whitespace characters removed by Python's `str.strip`. -/
def isPySpace (c : Char) : Bool :=
  c = ' ' || c = '\t' || c = '\n' || c = '\x0d' || c = '\x0b' || c = '\x0c'

/-- Python `str.strip`: drop whitespace from both ends. -/
def pyStrip (s : Str) : Str :=
  ((s.dropWhile isPySpace).reverse.dropWhile isPySpace).reverse

/-- Boolean prefix test on character lists. -/
def isPrefixList : Str → Str → Bool
  | [], _ => true
  | _ :: _, [] => false
  | a :: as, b :: bs => decide (a = b) && isPrefixList as bs

/-- Python's `needle in hay` on strings: contiguous substring containment. -/
def containsSub : Str → Str → Bool
  | [], w => w.isEmpty
  | h :: t, w => isPrefixList w (h :: t) || containsSub t w

/-- The fixed safe-word phrase list of `src/utils/safety.py`. -/
def SAFE_WORDS : List Str :=
  ["IMARA STOP".toList, "STOP".toList, "CANCEL".toList,
   "HELP ME".toList, "EXIT".toList, "EMERGENCY".toList]

/-- Embedding of `check_safe_word` (`src/utils/safety.py`): false on empty
text, otherwise scan the uppercased-then-stripped text for any safe word as a
substring.  A Python `None` argument behaves exactly like the empty string. -/
def check_safe_word (text : Str) : Bool :=
  if text.isEmpty then false
  else
    let text_upper := pyStrip (pyUpper text)
    SAFE_WORDS.any (fun w => containsSub text_upper w)

/-- The canonical country list of `src/partners/constants.py`
(`AFRICAN_COUNTRIES`, regions flattened in source order). -/
def AFRICAN_COUNTRIES : List Str :=
  ["Algeria".toList, "Egypt".toList, "Libya".toList, "Morocco".toList,
   "Sudan".toList, "Tunisia".toList,
   "Benin".toList, "Burkina Faso".toList, "Cape Verde".toList,
   "Côte d’Ivoire".toList, "Gambia".toList, "Ghana".toList, "Guinea".toList,
   "Guinea-Bissau".toList, "Liberia".toList, "Mali".toList,
   "Mauritania".toList, "Niger".toList, "Nigeria".toList, "Senegal".toList,
   "Sierra Leone".toList, "Togo".toList,
   "Cameroon".toList, "Central African Republic".toList, "Chad".toList,
   "Republic of the Congo".toList, "Democratic Republic of the Congo".toList,
   "Equatorial Guinea".toList, "Gabon".toList,
   "São Tomé and Príncipe".toList,
   "Burundi".toList, "Comoros".toList, "Djibouti".toList, "Eritrea".toList,
   "Ethiopia".toList, "Kenya".toList, "Madagascar".toList, "Malawi".toList,
   "Mauritius".toList, "Mozambique".toList, "Rwanda".toList,
   "Seychelles".toList, "Somalia".toList, "South Sudan".toList,
   "Tanzania".toList, "Uganda".toList, "Zambia".toList, "Zimbabwe".toList,
   "Angola".toList, "Botswana".toList, "Eswatini".toList, "Lesotho".toList,
   "Namibia".toList, "South Africa".toList]

/-- The synonym table of `src/partners/constants.py` (`COUNTRY_SYNONYMS`).
Note the keys spell the Ivorian entries without the circumflex while the
canonical value keeps it, and the canonical value uses the typographic
apostrophe U+2019. -/
def COUNTRY_SYNONYMS : List (Str × Str) :=
  [("naija".toList, "Nigeria".toList),
   ("drc".toList, "Democratic Republic of the Congo".toList),
   ("dr congo".toList, "Democratic Republic of the Congo".toList),
   ("democratic republic of congo".toList,
    "Democratic Republic of the Congo".toList),
   ("congo-kinshasa".toList, "Democratic Republic of the Congo".toList),
   ("congo brazzaville".toList, "Republic of the Congo".toList),
   ("republic of congo".toList, "Republic of the Congo".toList),
   ("ivory coast".toList, "Côte d’Ivoire".toList),
   ("cote d'ivoire".toList, "Côte d’Ivoire".toList),
   ("cote d’ivoire".toList, "Côte d’Ivoire".toList),
   ("swaziland".toList, "Eswatini".toList),
   ("cabo verde".toList, "Cape Verde".toList),
   ("sao tome and principe".toList, "São Tomé and Príncipe".toList),
   ("são tomé and príncipe".toList, "São Tomé and Príncipe".toList),
   ("sao tome & principe".toList, "São Tomé and Príncipe".toList)]

/-- The city table of `src/partners/constants.py` (`CITY_TO_COUNTRY`),
in insertion order, which is the iteration order of the Python dict. -/
def CITY_TO_COUNTRY : List (Str × Str) :=
  [("lagos".toList, "Nigeria".toList), ("abuja".toList, "Nigeria".toList),
   ("port harcourt".toList, "Nigeria".toList),
   ("ibadan".toList, "Nigeria".toList), ("kano".toList, "Nigeria".toList),
   ("enugu".toList, "Nigeria".toList),
   ("benin city".toList, "Nigeria".toList),
   ("kaduna".toList, "Nigeria".toList), ("jos".toList, "Nigeria".toList),
   ("ilaro".toList, "Nigeria".toList),
   ("accra".toList, "Ghana".toList), ("kumasi".toList, "Ghana".toList),
   ("tamale".toList, "Ghana".toList), ("takoradi".toList, "Ghana".toList),
   ("nairobi".toList, "Kenya".toList), ("mombasa".toList, "Kenya".toList),
   ("kisumu".toList, "Kenya".toList), ("nakuru".toList, "Kenya".toList),
   ("johannesburg".toList, "South Africa".toList),
   ("cape town".toList, "South Africa".toList),
   ("durban".toList, "South Africa".toList),
   ("pretoria".toList, "South Africa".toList)]

/-- Dict lookup (`dict.get`) for the synonym table. -/
def synonymGet (k : Str) : Option Str :=
  (COUNTRY_SYNONYMS.find? (fun p => p.1 = k)).map (·.2)

/-- Python `str.replace("  ", " ")`: non-overlapping left-to-right
replacement of two spaces by one. -/
def replaceDoubleSpace : Str → Str
  | ' ' :: ' ' :: rest => ' ' :: replaceDoubleSpace rest
  | c :: rest => c :: replaceDoubleSpace rest
  | [] => []

/-- The segment of `s` after its last comma: Python `s.split(",")[-1]`. -/
def afterLastComma (s : Str) : Str :=
  (s.reverse.takeWhile (fun c => c ≠ ',')).reverse

/-- Embedding of `normalize_location` (`src/partners/utils.py`).  The four
match stages fall through in source order: after-last-comma
synonym-then-exact-country match when a comma is present, then city substring
lookup, then synonym-or-exact match on the full text, then country-name
substring containment, else the sentinel `"Unknown"`. -/
def normalize_location (location_text : Str) : Str :=
  if location_text.isEmpty then "Unknown".toList
  else
    let raw := replaceDoubleSpace (pyLower (pyStrip location_text))
    let step1 : Option Str :=
      if raw.contains ',' then
        let candidate := pyStrip (afterLastComma raw)
        let candidate := (synonymGet candidate).getD candidate
        AFRICAN_COUNTRIES.find? (fun c => pyLower c = candidate)
      else none
    match step1 with
    | some c => c
    | none =>
      match CITY_TO_COUNTRY.find? (fun p => containsSub raw p.1) with
      | some p => p.2
      | none =>
        let candidate := pyLower ((synonymGet raw).getD raw)
        match AFRICAN_COUNTRIES.find? (fun c => pyLower c = candidate) with
        | some c => c
        | none =>
          match AFRICAN_COUNTRIES.find? (fun c => containsSub raw (pyLower c)) with
          | some c => c
          | none => "Unknown".toList

/-- Result shape returned by the Groq/Gemini client analysis calls
(`analysis` objects consumed in `src/triage/decision_engine.py`). -/
structure ThreatAnalysis where
  risk_score : Int
  action : Str
  location : Option Str
  summary : Str
  advice : Option Str
  threat_type : Option Str
  extracted_text : Option Str := none
  detected_language : Option Str := none
deriving DecidableEq

/-- Embedding of the `TriageResult` dataclass of
`src/triage/decision_engine.py`. -/
structure TriageResult where
  risk_score : Int
  action : Str
  location : Option Str
  summary : Str
  advice : Option Str
  threat_type : Option Str
  extracted_text : Option Str := none
  source_type : Str := "text".toList
  error : Option Str := none
  detected_language : Option Str := none
deriving DecidableEq

/-- The location test of the safety override in
`DecisionEngine.analyze_text` / `analyze_image_bytes`:
`not analysis.location or analysis.location.lower() in
['unknown', 'none', 'null', '']`. -/
def locationUnknownish : Option Str → Bool
  | none => true
  | some l =>
      l.isEmpty ||
      (pyLower l = "unknown".toList || pyLower l = "none".toList ||
       pyLower l = "null".toList || pyLower l = [])

/-- The safety override applied inside `analyze_text` and
`analyze_image_bytes`: high risk with no usable location forces
`ASK_LOCATION`. -/
def safetyOverride (a : ThreatAnalysis) : ThreatAnalysis :=
  if a.risk_score ≥ 7 ∧ locationUnknownish a.location = true then
    { a with action := "ASK_LOCATION".toList }
  else a

/-- Embedding of `DecisionEngine._get_fallback_result`. -/
def get_fallback_result (source_type : Str) (error_message : Str) : TriageResult :=
  { risk_score := 5,
    action := "ADVISE".toList,
    location := some "Unknown".toList,
    summary := "Unable to fully analyze the content due to a technical issue".toList,
    advice := some ("If you feel threatened, please contact local emergency services directly. You can also try submitting again.".toList),
    threat_type := some "unknown".toList,
    source_type := source_type,
    error := some error_message }

/-- Embedding of `DecisionEngine.analyze_text`.  The Groq client call either
returns an analysis or raises; a raising call enters as `Except.error` with
the exception message, and every exception path returns the fallback result.
The safety override runs on the successful analysis before the result is
built. -/
def analyze_text (client_result : Except Str ThreatAnalysis) : TriageResult :=
  match client_result with
  | .ok analysis₀ =>
    let analysis := safetyOverride analysis₀
    { risk_score := analysis.risk_score, action := analysis.action,
      location := analysis.location, summary := analysis.summary,
      advice := analysis.advice, threat_type := analysis.threat_type,
      source_type := "text".toList,
      detected_language := analysis.detected_language }
  | .error e => get_fallback_result "text".toList e

/-- Embedding of `DecisionEngine.analyze_image` (lines 91-110 of
`src/triage/decision_engine.py`).  Unlike `analyze_text` and
`analyze_image_bytes`, the source applies no safety override here: the
client's analysis is copied into the result verbatim. -/
def analyze_image (client_result : Except Str ThreatAnalysis) : TriageResult :=
  match client_result with
  | .ok analysis =>
    { risk_score := analysis.risk_score, action := analysis.action,
      location := analysis.location, summary := analysis.summary,
      advice := analysis.advice, threat_type := analysis.threat_type,
      extracted_text := analysis.extracted_text,
      source_type := "image".toList }
  | .error e => get_fallback_result "image".toList e

/-- Embedding of `DecisionEngine.analyze_image_bytes`, which does apply the
safety override before building the result. -/
def analyze_image_bytes (client_result : Except Str ThreatAnalysis) : TriageResult :=
  match client_result with
  | .ok analysis₀ =>
    let analysis := safetyOverride analysis₀
    { risk_score := analysis.risk_score, action := analysis.action,
      location := analysis.location, summary := analysis.summary,
      advice := analysis.advice, threat_type := analysis.threat_type,
      extracted_text := analysis.extracted_text,
      source_type := "image".toList }
  | .error e => get_fallback_result "image".toList e

/-- JSON values as delivered by `json.loads`, restricted to the shapes the
conversation engine and agents actually consume. -/
inductive JValue where
  | null
  | bool (b : Bool)
  | num (n : Int)
  | str (s : Str)
  | obj (fields : List (Str × JValue))

/-- Dict lookup on a decoded JSON object (first binding wins, as in a Python
dict where keys are unique). -/
def jGet : List (Str × JValue) → Str → Option JValue
  | [], _ => none
  | (k', v') :: rest, k => if k' = k then some v' else jGet rest k

/-- Python truthiness of an optional JSON value (`None`, `False`, `0`, `""`,
`{}` are falsy). -/
def jTruthy : Option JValue → Bool
  | none => false
  | some .null => false
  | some (.bool b) => b
  | some (.num n) => decide (n ≠ 0)
  | some (.str s) => !s.isEmpty
  | some (.obj f) => !f.isEmpty

/-- The conversation states of `src/triage/conversation_engine.py`. -/
inductive ConversationState where
  | IDLE
  | GATHERING
  | ASKING_LOCATION
  | CONFIRMING
  | PROCESSING
  | LOW_RISK_ADVISE
deriving DecidableEq

/-- Enum-by-value construction `ConversationState(state_str)`: `none` models
the `ValueError` branch. -/
def stateFromString (s : Str) : Option ConversationState :=
  if s = "IDLE".toList then some .IDLE
  else if s = "GATHERING".toList then some .GATHERING
  else if s = "ASKING_LOCATION".toList then some .ASKING_LOCATION
  else if s = "CONFIRMING".toList then some .CONFIRMING
  else if s = "PROCESSING".toList then some .PROCESSING
  else if s = "LOW_RISK_ADVISE".toList then some .LOW_RISK_ADVISE
  else none

/-- Embedding of the `ConversationResponse` dataclass. -/
structure ConversationResponse where
  message : Str
  state : ConversationState
  gathered_info : List (Str × JValue) := []
  should_create_report : Bool := false
  is_low_risk : Bool := false
  detected_language : Option Str := none
  error : Option Str := none

/-- Embedding of `ConversationEngine._parse_llm_response`.  The argument is
the outcome of `json.loads(content)`: `Except.error content` models a
`JSONDecodeError` (the handler reuses the raw content as the user message),
`Except.ok data` a decoded top-level object.  The model reply's state string
is uppercased and coerced to a state (invalid values fall back to
`GATHERING`), `gathered_info` is copied through unchanged, and
`should_create_report` is exactly `state == PROCESSING` — the source applies
no field, location or confirmation gate here. -/
def parse_llm_response (outcome : Except Str (List (Str × JValue))) :
    ConversationResponse :=
  match outcome with
  | .error content =>
    { message := if content.isEmpty then
        "I'm here to help. Can you tell me more about what happened?".toList
      else content,
      state := .GATHERING,
      error := some "JSON parse error".toList }
  | .ok data =>
    let state_str := pyUpper (match jGet data "state".toList with
      | some (.str s) => s
      | _ => "GATHERING".toList)
    let state := (stateFromString state_str).getD .GATHERING
    let gathered_info := match jGet data "gathered_info".toList with
      | some (.obj f) => f
      | _ => []
    let should_create_report := state = ConversationState.PROCESSING
    let is_low_risk := state = ConversationState.LOW_RISK_ADVISE
    { message := (match jGet data "response".toList with
        | some (.str s) => s
        | _ => "I'm here to help. Can you tell me more?".toList),
      state := state,
      gathered_info := gathered_info,
      should_create_report := should_create_report,
      is_low_risk := is_low_risk,
      detected_language := match jGet data "detected_language".toList with
        | some (.str s) => some s
        | _ => none }

/-- The mandatory fields of `DecisionEngine.REQUIRED_FIELDS`. -/
def REQUIRED_FIELDS : List Str :=
  ["reporter_name".toList, "incident_description".toList,
   "contact_preference".toList]

/-- One field check of `DecisionEngine.check_required_fields`: a string value
is stripped first, any other value is tested for truthiness directly. -/
def fieldMissing (info : List (Str × JValue)) (f : Str) : Bool :=
  match jGet info f with
  | some (.str s) => (pyStrip s).isEmpty
  | v => !jTruthy v

/-- String field read with the `(info.get(k) or "")` coercion. -/
def strFieldOrEmpty (info : List (Str × JValue)) (k : Str) : Str :=
  match jGet info k with
  | some (.str s) => s
  | _ => []

/-- Embedding of `DecisionEngine.check_required_fields`
(`src/triage/decision_engine.py` lines 206-233): the three mandatory fields,
then `reporter_email` when the contact preference mentions email, then
`location` when the gathered risk score is at least 7. -/
def check_required_fields (info : List (Str × JValue)) : List Str :=
  let missing := REQUIRED_FIELDS.filter (fieldMissing info)
  let contact_pref := pyLower (strFieldOrEmpty info "contact_preference".toList)
  let missing := if containsSub contact_pref "email".toList then
      (if (pyStrip (strFieldOrEmpty info "reporter_email".toList)).isEmpty then
        missing ++ ["reporter_email".toList]
      else missing)
    else missing
  let risk_score : Int := match jGet info "risk_score".toList with
    | some (.num n) => n
    | _ => 0
  if risk_score ≥ 7 then
    missing ++ (["location".toList].filter (fun f =>
      match jGet info f with
      | some (.str s) => (pyStrip s).isEmpty || pyStrip s = "Unknown".toList
      | v => !jTruthy v))
  else missing

/-- Embedding of the `ChatSession` fields touched by the safe-word flow
(`src/triage/models.py`); `cancelled_until` is a timestamp in seconds. -/
structure ChatSession where
  conversation_state : Str := "IDLE".toList
  gathered_evidence : List (Str × JValue) := []
  awaiting_location : Bool := false
  pending_report_data : Option (List (Str × JValue)) := none
  cancelled_until : Option Nat := none

/-- Embedding of `ChatSession.set_cancelled`: start the cooldown and reset
the conversational state, clearing gathered evidence. -/
def set_cancelled (s : ChatSession) (now seconds : Nat) : ChatSession :=
  { s with cancelled_until := some (now + seconds),
           awaiting_location := false,
           pending_report_data := none,
           conversation_state := "IDLE".toList,
           gathered_evidence := [] }

/-- Embedding of `ChatSession.is_cancelled`: true while `cancelled_until` is
strictly in the future. -/
def is_cancelled (s : ChatSession) (now : Nat) : Bool :=
  match s.cancelled_until with
  | some t => decide (now < t)
  | none => false

/-- The safe-word branch of `TelegramProcessor.process_update`
(`src/intake/webhook_service.py` lines 71-76): when the inbound text is
non-empty and contains a safe word, the session is cancelled for 60 seconds
and the handler returns early; `none` means the branch was not taken. -/
def process_update_safe_word (s : ChatSession) (text : Str) (now : Nat) :
    Option ChatSession :=
  if ¬text.isEmpty ∧ check_safe_word text = true then
    some (set_cancelled s now 60)
  else none

/-- What reaches the user at the end of a `handle_text` turn. -/
structure DeliveryOutcome where
  delivered : Bool
  report_created : Bool
deriving DecidableEq

/-- The delivery tail of `TelegramProcessor.handle_text` (lines 123-135):
after re-reading the session, a cancelled session suppresses both the reply
delivery and any report creation. -/
def handle_text_delivery (s : ChatSession) (now : Nat)
    (should_create_report : Bool) : DeliveryOutcome :=
  if is_cancelled s now then ⟨false, false⟩
  else ⟨true, should_create_report⟩

/-- Embedding of the `ContextBundle` of `src/triage/agents/base.py`,
restricted to the fields the Sentinel stage touches. -/
structure ContextBundle where
  user_message : Str
  message_type : Str := "text".toList
  artifacts : List (Str × JValue) := []
  workflow_state : Str := "START".toList

/-- Python dict assignment `artifacts[key] = value`: replace an existing
binding in place or append a new one. -/
def setKey : List (Str × JValue) → Str → JValue → List (Str × JValue)
  | [], k, v => [(k, v)]
  | (k', v') :: rest, k, v =>
    if k' = k then (k, v) :: rest else (k', v') :: setKey rest k v

/-- Embedding of `ContextBundle.add_artifact`. -/
def add_artifact (b : ContextBundle) (key : Str) (value : JValue) :
    ContextBundle :=
  { b with artifacts := setKey b.artifacts key value }

/-- Embedding of `SentinelAgent.process` (`src/triage/agents/sentinel.py`).
The argument is the combined outcome of the LLM call and `json.loads`: any
exception in the `try` block enters as `Except.error` with the exception
message, and is answered by the fail-safe artifact
`{"error": str(e), "is_safe": True}` — the function is total, so no
exception ever escapes to the orchestrator. -/
def sentinel_process (attempt : Except Str JValue) (b : ContextBundle) :
    ContextBundle :=
  match attempt with
  | .ok analysis =>
    let b := add_artifact b "safety_check".toList analysis
    { b with workflow_state :=
        if jTruthy (match analysis with
          | .obj f => jGet f "is_safe".toList
          | _ => none) then "SAFE".toList else "THREAT_DETECTED".toList }
  | .error e =>
    add_artifact b "safety_check".toList
      (.obj [("error".toList, .str e), ("is_safe".toList, .bool true)])

/-- The 32-bit modulus for SHA-256 word arithmetic. -/
def M32 : Nat := 4294967296

/-- Rotate a 32-bit word right by `n`. -/
def rotr (x n : Nat) : Nat := ((x >>> n) ||| (x <<< (32 - n))) % M32

/-- SHA-256 `Ch`. -/
def shaCh (x y z : Nat) : Nat := (x &&& y) ^^^ ((x ^^^ 4294967295) &&& z)

/-- SHA-256 `Maj`. -/
def shaMaj (x y z : Nat) : Nat := (x &&& y) ^^^ (x &&& z) ^^^ (y &&& z)

/-- SHA-256 `Σ₀`. -/
def bigSigma0 (x : Nat) : Nat := rotr x 2 ^^^ rotr x 13 ^^^ rotr x 22

/-- SHA-256 `Σ₁`. -/
def bigSigma1 (x : Nat) : Nat := rotr x 6 ^^^ rotr x 11 ^^^ rotr x 25

/-- SHA-256 `σ₀`. -/
def smallSigma0 (x : Nat) : Nat := rotr x 7 ^^^ rotr x 18 ^^^ (x >>> 3)

/-- SHA-256 `σ₁`. -/
def smallSigma1 (x : Nat) : Nat := rotr x 17 ^^^ rotr x 19 ^^^ (x >>> 10)

/-- The SHA-256 round constants (FIPS 180-4, written in decimal). -/
def shaK : List Nat :=
  [1116352408, 1899447441, 3049323471, 3921009573,
   961987163, 1508970993, 2453635748, 2870763221,
   3624381080, 310598401, 607225278, 1426881987,
   1925078388, 2162078206, 2614888103, 3248222580,
   3835390401, 4022224774, 264347078, 604807628,
   770255983, 1249150122, 1555081692, 1996064986,
   2554220882, 2821834349, 2952996808, 3210313671,
   3336571891, 3584528711, 113926993, 338241895,
   666307205, 773529912, 1294757372, 1396182291,
   1695183700, 1986661051, 2177026350, 2456956037,
   2730485921, 2820302411, 3259730800, 3345764771,
   3516065817, 3600352804, 4094571909, 275423344,
   430227734, 506948616, 659060556, 883997877,
   958139571, 1322822218, 1537002063, 1747873779,
   1955562222, 2024104815, 2227730452, 2361852424,
   2428436474, 2756734187, 3204031479, 3329325298]

/-- The SHA-256 working state. -/
structure Hash8 where
  a : Nat
  b : Nat
  c : Nat
  d : Nat
  e : Nat
  f : Nat
  g : Nat
  h : Nat

/-- The SHA-256 initial state (FIPS 180-4, written in decimal). -/
def shaH0 : Hash8 :=
  ⟨1779033703, 3144134277, 1013904242, 2773480762,
   1359893119, 2600822924, 528734635, 1541459225⟩

/-- Big-endian bytes of `n`, `k` bytes wide. -/
def beBytes : Nat → Nat → List Nat
  | 0, _ => []
  | k + 1, n => beBytes k (n / 256) ++ [n % 256]

/-- Split a byte list into 64-byte blocks; the first argument is fuel that
bounds the number of blocks (structural recursion so the kernel can reduce
it). -/
def chunksAux : Nat → List Nat → List (List Nat)
  | 0, _ => []
  | _, [] => []
  | fuel + 1, a :: t => (a :: t).take 64 :: chunksAux fuel ((a :: t).drop 64)

/-- Split a byte list into 64-byte blocks. -/
def chunks64 (l : List Nat) : List (List Nat) := chunksAux (l.length + 1) l

/-- Pack bytes into 32-bit big-endian words. -/
def wordsOf : List Nat → List Nat
  | b0 :: b1 :: b2 :: b3 :: rest =>
    (((b0 * 256 + b1) * 256 + b2) * 256 + b3) :: wordsOf rest
  | _ => []

/-- One extension step of the SHA-256 message schedule, appending word
`w.length` from the last sixteen words. -/
def extendStep (w : List Nat) : List Nat :=
  w ++ [(smallSigma1 (w.getD (w.length - 2) 0) + w.getD (w.length - 7) 0 +
         smallSigma0 (w.getD (w.length - 15) 0) + w.getD (w.length - 16) 0) % M32]

/-- Iterate the schedule extension `n` times. -/
def extendIter : Nat → List Nat → List Nat
  | 0, w => w
  | n + 1, w => extendIter n (extendStep w)

/-- The 64-word SHA-256 message schedule from the 16 block words. -/
def extendW (w16 : List Nat) : List Nat := extendIter 48 w16

/-- One SHA-256 compression round; `kw` is the round constant plus the
schedule word. -/
def shaRound (s : Hash8) (kw : Nat) : Hash8 :=
  let t1 := (s.h + bigSigma1 s.e + shaCh s.e s.f s.g + kw) % M32
  let t2 := (bigSigma0 s.a + shaMaj s.a s.b s.c) % M32
  ⟨(t1 + t2) % M32, s.a, s.b, s.c, (s.d + t1) % M32, s.e, s.f, s.g⟩

/-- Compress one 64-byte block into the running state. -/
def processBlock (h : Hash8) (block : List Nat) : Hash8 :=
  let w := extendW (wordsOf block)
  let kw := List.zipWith (fun k wi => (k + wi) % M32) shaK w
  let s := kw.foldl shaRound h
  ⟨(h.a + s.a) % M32, (h.b + s.b) % M32, (h.c + s.c) % M32,
   (h.d + s.d) % M32, (h.e + s.e) % M32, (h.f + s.f) % M32,
   (h.g + s.g) % M32, (h.h + s.h) % M32⟩

/-- SHA-256 over a byte list, producing the 32 digest bytes. -/
def sha256Bytes (msg : List Nat) : List Nat :=
  let padded := msg ++ [0x80] ++
    List.replicate ((119 - msg.length % 64) % 64) 0 ++
    beBytes 8 (8 * msg.length)
  let hf := (chunks64 padded).foldl processBlock shaH0
  beBytes 4 hf.a ++ beBytes 4 hf.b ++ beBytes 4 hf.c ++ beBytes 4 hf.d ++
  beBytes 4 hf.e ++ beBytes 4 hf.f ++ beBytes 4 hf.g ++ beBytes 4 hf.h

/-- Lowercase hex digit of a nibble. -/
def hexDigit (n : Nat) : Char :=
  if n < 10 then Char.ofNat (48 + n) else Char.ofNat (87 + n)

/-- The lowercase hex digest string, as `hashlib.sha256(...).hexdigest()`. -/
def sha256Hex (msg : List Nat) : Str :=
  (sha256Bytes msg).foldr (fun b acc => hexDigit (b / 16) :: hexDigit (b % 16) :: acc) []

/-- UTF-8 bytes of one character. -/
def utf8Char (c : Char) : List Nat :=
  let n := c.toNat
  if n < 0x80 then [n]
  else if n < 0x800 then [0xc0 + n / 64, 0x80 + n % 64]
  else if n < 0x10000 then
    [0xe0 + n / 4096, 0x80 + n / 64 % 64, 0x80 + n % 64]
  else
    [0xf0 + n / 262144, 0x80 + n / 4096 % 64, 0x80 + n / 64 % 64,
     0x80 + n % 64]

/-- UTF-8 encoding of a string, as Python's `str.encode()`. -/
def utf8Bytes (s : Str) : List Nat := (s.map utf8Char).flatten

/-- The string hashed by `IncidentReport.generate_chain_hash`
(`src/cases/models.py` lines 85-106): the case id, the concatenation of all
evidence digests ordered by ascending creation time, and the three text
fields and creation timestamp each coerced with `or ''` /
`isoformat() if ... else ''`. -/
def chainContent (caseId : Str) (assetDigests : List Str)
    (originalText transcribedText extractedText createdAt : Option Str) : Str :=
  caseId ++ (assetDigests.flatten ++ (originalText.getD [] ++
    (transcribedText.getD [] ++ (extractedText.getD [] ++ createdAt.getD []))))

/-- Embedding of `IncidentReport.generate_chain_hash`: SHA-256 hex digest of
the UTF-8 encoded chain content. -/
def generate_chain_hash (caseId : Str) (assetDigests : List Str)
    (originalText transcribedText extractedText createdAt : Option Str) : Str :=
  sha256Hex (utf8Bytes (chainContent caseId assetDigests originalText
    transcribedText extractedText createdAt))

/-- Embedding of the `EvidenceAsset` fields used by hashing: the raw file
bytes when a file is attached, the derived text, and the stored digest. -/
structure EvidenceAsset where
  file : Option (List Nat) := none
  derived_text : Option Str := none
  sha256_digest : Option Str := none
deriving DecidableEq

/-- Embedding of `EvidenceAsset.generate_hash` (`src/cases/models.py` lines
134-142), returning the digest field after the call: a present file is
stream-hashed; otherwise a *truthy* (non-empty) derived text is hashed; an
absent or empty derived text leaves the digest untouched, because
`elif self.derived_text:` is false for the empty string. -/
def evidence_generate_hash (file : Option (List Nat))
    (derived_text : Option Str) (digest : Option Str) : Option Str :=
  match file with
  | some bytes => some (sha256Hex bytes)
  | none =>
    match derived_text with
    | some t => if t.isEmpty then digest else some (sha256Hex (utf8Bytes t))
    | none => digest

/-- Embedding of `EvidenceAsset.save`: the hash is generated only when the
digest is unset (`None` or the empty string), so a set digest is never
replaced. -/
def evidence_save (a : EvidenceAsset) : EvidenceAsset :=
  if a.sha256_digest = none ∨ a.sha256_digest = some [] then
    { a with sha256_digest :=
        evidence_generate_hash a.file a.derived_text a.sha256_digest }
  else a

/-- A high-risk Gemini analysis with no location and an `ADVISE`
recommendation, used to evaluate the decision-engine entry points. -/
def c1Analysis : ThreatAnalysis :=
  { risk_score := 9,
    action := "ADVISE".toList,
    location := none,
    summary := "Screenshot contains a direct threat".toList,
    advice := some "Stay safe".toList,
    threat_type := some "death_threat".toList,
    extracted_text := some "I will find you".toList }

/-- The gathered info of the repository's own
`test_mandatory_fields_enforcement` test: risk 5, a location, a confirmation,
but no reporter name, incident description or contact preference. -/
def c2GatheredInfo : List (Str × JValue) :=
  [("risk_score".toList, .num 5),
   ("location".toList, .str "Accra, Ghana".toList),
   ("user_confirmed".toList, .bool true)]

/-- The model reply of `test_mandatory_fields_enforcement`: the model
proposes `PROCESSING` although the mandatory fields are missing. -/
def c2Payload : List (Str × JValue) :=
  [("response".toList, .str "I see the threat.".toList),
   ("state".toList, .str "PROCESSING".toList),
   ("gathered_info".toList, .obj c2GatheredInfo)]

/-- The gathered info of the repository's own
`test_high_risk_requires_confirmation` test: risk 8 and an explicit
`user_confirmed: false`. -/
def c3GatheredInfo : List (Str × JValue) :=
  [("risk_score".toList, .num 8),
   ("location".toList, .str "Lagos, Nigeria".toList),
   ("user_confirmed".toList, .bool false)]

/-- The model reply of `test_high_risk_requires_confirmation`: the model
proposes `PROCESSING` on an unconfirmed high-risk case. -/
def c3Payload : List (Str × JValue) :=
  [("response".toList, .str "I see the threat.".toList),
   ("state".toList, .str "PROCESSING".toList),
   ("gathered_info".toList, .obj c3GatheredInfo)]

/-- A well-formed 64-character evidence digest used as a witness input. -/
def digest64 : Str := List.replicate 64 'a'

end Imara

namespace Imara

/-- Sanity check of the SHA-256 embedding against the FIPS 180 test vector
for the message `"abc"`. -/
theorem sha256Hex_test_vector :
    sha256Hex (utf8Bytes "abc".toList) =
      "ba7816bf8f01cfea414140de5dae2223b00361a396177a9cb410ff61f20015ad".toList := by
  decide

/-- Boolean prefix testing agrees with the existential prefix statement. -/
theorem isPrefixList_iff (w : Str) :
    ∀ t : Str, isPrefixList w t = true ↔ ∃ r, w ++ r = t := by
  induction w with
  | nil => intro t; simp [isPrefixList]
  | cons a as ih =>
    intro t
    cases t with
    | nil => simp [isPrefixList]
    | cons b bs =>
      simp only [isPrefixList, Bool.and_eq_true, decide_eq_true_eq,
        List.cons_append, List.cons.injEq]
      constructor
      · rintro ⟨hab, hp⟩
        obtain ⟨r, hr⟩ := (ih bs).mp hp
        exact ⟨r, hab, hr⟩
      · rintro ⟨r, hab, hr⟩
        exact ⟨hab, (ih bs).mpr ⟨r, hr⟩⟩

/-- Substring containment agrees with the existential infix statement. -/
theorem containsSub_iff (w : Str) :
    ∀ hay : Str, containsSub hay w = true ↔ ∃ u v, u ++ (w ++ v) = hay := by
  intro hay
  induction hay with
  | nil =>
    simp only [containsSub, List.isEmpty_iff]
    constructor
    · intro h; exact ⟨[], [], by simp [h]⟩
    · rintro ⟨u, v, huv⟩
      rcases List.append_eq_nil.mp huv with ⟨-, hwv⟩
      exact (List.append_eq_nil.mp hwv).1
  | cons h t ih =>
    simp only [containsSub, Bool.or_eq_true]
    constructor
    · rintro (hp | hc)
      · obtain ⟨r, hr⟩ := (isPrefixList_iff w (h :: t)).mp hp
        exact ⟨[], r, by simpa using hr⟩
      · obtain ⟨u, v, huv⟩ := ih.mp hc
        exact ⟨h :: u, v, by simp [huv]⟩
    · rintro ⟨u, v, huv⟩
      cases u with
      | nil =>
        exact Or.inl ((isPrefixList_iff w (h :: t)).mpr ⟨v, by simpa using huv⟩)
      | cons x u' =>
        have := List.cons.inj huv
        exact Or.inr (ih.mpr ⟨u', v, this.2⟩)

/-- Flattening is injective on lists of fixed-width (64-character) digests. -/
theorem flatten64_inj :
    ∀ (l l' : List Str), (∀ s ∈ l, s.length = 64) → (∀ s ∈ l', s.length = 64) →
      l.flatten = l'.flatten → l = l' := by
  intro l
  induction l with
  | nil =>
    intro l' _ h' heq
    cases l' with
    | nil => rfl
    | cons b t' =>
      exfalso
      have hb : b.length = 64 := h' b (by simp)
      have : ([] : Str).length = (b ++ t'.flatten).length := by
        simpa [List.flatten] using congrArg List.length heq
      simp only [List.length_nil, List.length_append, hb] at this
      omega
  | cons a t ih =>
    intro l' h h' heq
    cases l' with
    | nil =>
      exfalso
      have ha : a.length = 64 := h a (by simp)
      have : (a ++ t.flatten).length = ([] : Str).length := by
        simpa [List.flatten] using congrArg List.length heq
      simp only [List.length_nil, List.length_append, ha] at this
      omega
    | cons b t' =>
      have ha : a.length = 64 := h a (by simp)
      have hb : b.length = 64 := h' b (by simp)
      have heq' : a ++ t.flatten = b ++ t'.flatten := by simpa [List.flatten] using heq
      obtain ⟨hab, htl⟩ := List.append_inj heq' (by rw [ha, hb])
      have := ih t' (fun s hs => h s (by simp [hs])) (fun s hs => h' s (by simp [hs])) htl
      rw [hab, this]

/-- Updating a key in an artifact map and reading it back yields the stored
value. -/
theorem jGet_setKey (l : List (Str × JValue)) (k : Str) (v : JValue) :
    jGet (setKey l k v) k = some v := by
  induction l with
  | nil => simp [setKey, jGet]
  | cons p rest ih =>
    obtain ⟨k', v'⟩ := p
    by_cases hk : k' = k
    · simp [setKey, if_pos hk, jGet]
    · simp [setKey, if_neg hk, jGet, ih]

/-- C1.  The claimed safety override does not cover `analyze_image`: on a
client analysis with `risk_score = 9`, `location = None` and a recommended
action of `ADVISE`, the returned `TriageResult` keeps `ADVISE` instead of the
claimed `ASK_LOCATION`, even though the override condition
(`risk_score >= 7` and unusable location) holds — while the sibling entry
points `analyze_text` and `analyze_image_bytes` do force `ASK_LOCATION` on
exactly the same analysis. -/
theorem C1_analyze_image_lacks_override :
    c1Analysis.risk_score ≥ 7 ∧
    locationUnknownish c1Analysis.location = true ∧
    (analyze_image (.ok c1Analysis)).risk_score = 9 ∧
    (analyze_image (.ok c1Analysis)).location = none ∧
    (analyze_image (.ok c1Analysis)).action = "ADVISE".toList ∧
    (analyze_image (.ok c1Analysis)).action ≠ "ASK_LOCATION".toList ∧
    (analyze_image_bytes (.ok c1Analysis)).action = "ASK_LOCATION".toList ∧
    (analyze_text (.ok c1Analysis)).action = "ASK_LOCATION".toList :=
  ⟨by decide, rfl, rfl, rfl, rfl, by decide, rfl, rfl⟩

/-- C2.  The conversation engine applies no mandatory-field gate: on the
model reply of the repository's own `test_mandatory_fields_enforcement`
test (state `PROCESSING`, gathered info missing reporter name, incident
description and contact preference), `_parse_llm_response` returns
`should_create_report = true` with state `PROCESSING`, copies
`gathered_info` through unchanged, and surfaces no `missing_fields` —
although the decision engine's own `check_required_fields` reports all
three fields missing for that gathered info. -/
theorem C2_parse_has_no_mandatory_field_gate :
    (parse_llm_response (.ok c2Payload)).should_create_report = true ∧
    (parse_llm_response (.ok c2Payload)).state = ConversationState.PROCESSING ∧
    (parse_llm_response (.ok c2Payload)).gathered_info = c2GatheredInfo ∧
    jGet (parse_llm_response (.ok c2Payload)).gathered_info
      "missing_fields".toList = none ∧
    check_required_fields c2GatheredInfo =
      ["reporter_name".toList, "incident_description".toList,
       "contact_preference".toList] :=
  ⟨rfl, rfl, rfl, rfl, rfl⟩

/-- C3.  The conversation engine applies no confirmation gate: on the model
reply of the repository's own `test_high_risk_requires_confirmation` test
(state `PROCESSING`, risk score 8, `user_confirmed: false`),
`_parse_llm_response` returns `should_create_report = true` with state
`PROCESSING` instead of the claimed `False` / downgrade to `CONFIRMING`. -/
theorem C3_parse_has_no_confirmation_gate :
    jGet c3GatheredInfo "risk_score".toList = some (.num 8) ∧
    jGet c3GatheredInfo "user_confirmed".toList = some (.bool false) ∧
    (parse_llm_response (.ok c3Payload)).should_create_report = true ∧
    (parse_llm_response (.ok c3Payload)).state = ConversationState.PROCESSING :=
  ⟨rfl, rfl, rfl, rfl⟩

/-- C4.  Fallback non-throw: for every exception message raised by the
reasoning client, the embedded `analyze_text` (total by construction, so the
exception never propagates) returns the fixed fallback `TriageResult` with
`risk_score = 5`, action `ADVISE`, non-empty summary and advice, and the
exception message recorded in the `error` field. -/
theorem C4_analyze_text_fallback (e : Str) :
    (analyze_text (.error e)).risk_score = 5 ∧
    (analyze_text (.error e)).action = "ADVISE".toList ∧
    (analyze_text (.error e)).summary ≠ [] ∧
    (analyze_text (.error e)).advice.getD [] ≠ [] ∧
    (analyze_text (.error e)).error = some e ∧
    analyze_text (.error e) = get_fallback_result "text".toList e := by
  refine ⟨rfl, rfl, ?_, ?_, rfl, rfl⟩
  · show ("Unable to fully analyze the content due to a technical issue".toList : Str) ≠ []
    decide
  · show ("If you feel threatened, please contact local emergency services directly. You can also try submitting again.".toList : Str) ≠ []
    decide

/-- C5.  Safe-word handling: whenever the Telegram update handler's
safe-word branch fires (the inbound text is non-empty and contains a safe
word), the session is reset to `IDLE` with empty gathered evidence and
`cancelled_until` 60 seconds in the future; firing the handler again leaves
the session in `IDLE` with empty gathered evidence again; and at any instant
inside the cooldown window the session reads as cancelled, so the delivery
tail of `handle_text` suppresses both the reply and any report creation. -/
theorem C5_safe_word_reset_idempotent_cooldown
    (s : ChatSession) (text : Str) (now now' : Nat) (s1 : ChatSession)
    (h : process_update_safe_word s text now = some s1) :
    s1.conversation_state = "IDLE".toList ∧
    s1.gathered_evidence = [] ∧
    s1.cancelled_until = some (now + 60) ∧
    process_update_safe_word s1 text now' = some (set_cancelled s1 now' 60) ∧
    (set_cancelled s1 now' 60).conversation_state = "IDLE".toList ∧
    (set_cancelled s1 now' 60).gathered_evidence = [] ∧
    (∀ t, t < now + 60 → is_cancelled s1 t = true) ∧
    (∀ t b, is_cancelled s1 t = true →
      handle_text_delivery s1 t b = ⟨false, false⟩) := by
  unfold process_update_safe_word at h
  by_cases hc : ¬text.isEmpty ∧ check_safe_word text = true
  · rw [if_pos hc] at h
    have hs : s1 = set_cancelled s now 60 := (Option.some.inj h).symm
    subst hs
    refine ⟨rfl, rfl, rfl, ?_, rfl, rfl, ?_, ?_⟩
    · unfold process_update_safe_word
      rw [if_pos hc]
    · intro t ht
      simp only [set_cancelled, is_cancelled]
      exact decide_eq_true ht
    · intro t b hct
      simp [handle_text_delivery, hct]
  · rw [if_neg hc] at h
    exact absurd h (by simp)

/-- C5 witness: the theorem applied to a fresh session receiving the message
`"STOP"` at time 0, re-fired at time 5 and probed at time 30. -/
theorem C5_safe_word_witness :
    is_cancelled (set_cancelled {} 0 60) 30 = true :=
  ((C5_safe_word_reset_idempotent_cooldown {} "STOP".toList 0 5
    (set_cancelled {} 0 60) rfl).2.2.2.2.2.2.1) 30 (by decide)

/-- C6 counterexample: the claimed equality
`normalize_location "ivory coast" = normalize_location "Côte d'Ivoire"`
fails when, as written in the specification, the right-hand input carries a
straight apostrophe U+0027: the synonym keys spell that variant without the
circumflex and the canonical country name carries the typographic apostrophe
U+2019, so the straight-apostrophe input matches nothing and normalizes to
the sentinel `"Unknown"`, while `"ivory coast"` normalizes to
`"Côte d’Ivoire"`. -/
theorem C6_normalize_location_counterexample :
    ¬ (normalize_location "ivory coast".toList =
       normalize_location "Côte d'Ivoire".toList) := by
  decide

/-- C6 amended: `normalize_location` implements the source's fall-through
algorithm (comma step, then city lookup, then full-string synonym-or-exact
match, then country substring, else `"Unknown"`), and on the concrete
inputs: `"Lagos, Nigeria"` gives `"Nigeria"`, `"nairobi"` gives `"Kenya"`,
`"ivory coast"` and the typographic spelling `"Côte d’Ivoire"` both give the
canonical `"Côte d’Ivoire"`, `"Mars"` gives `"Unknown"` — but the
straight-apostrophe spelling `"Côte d'Ivoire"` used by the specification
gives `"Unknown"`, so the claimed equality holds only for the typographic
spelling. -/
theorem C6_normalize_location_amended :
    normalize_location "Lagos, Nigeria".toList = "Nigeria".toList ∧
    normalize_location "nairobi".toList = "Kenya".toList ∧
    normalize_location "ivory coast".toList = "Côte d’Ivoire".toList ∧
    normalize_location "Côte d’Ivoire".toList = "Côte d’Ivoire".toList ∧
    normalize_location "cote d'ivoire".toList = "Côte d’Ivoire".toList ∧
    normalize_location "Mars".toList = "Unknown".toList ∧
    normalize_location "Côte d'Ivoire".toList = "Unknown".toList ∧
    normalize_location [] = "Unknown".toList := by
  refine ⟨by decide, by decide, by decide, by decide, by decide, by decide,
    by decide, by decide⟩

/-- C7 counterexample: changing `original_text` from `None` to the empty
string is a change of the field that does *not* change the chain hash,
because `generate_chain_hash` serializes the field as
`self.original_text or ''`, identifying the two values. -/
theorem C7_chain_hash_counterexample :
    generate_chain_hash "7f3a".toList [] none none none
        (some "2026-01-01T00:00:00".toList) =
      generate_chain_hash "7f3a".toList [] (some []) none none
        (some "2026-01-01T00:00:00".toList) := rfl

/-- C7 amended: the chain hash is SHA-256 of the serialized chain content,
hence deterministic in the listed inputs; and the serialized content (the
SHA-256 preimage) is strictly sensitive to every change the claim lists, as
long as the change survives the `or ''` coercion: any change — addition,
removal or alteration — of the 64-character evidence digest list changes the
content, and so does any change of the rendered (`x or ''`) value of each of
the original, transcribed and extracted text fields taken singly. -/
theorem C7_chain_hash_amended :
    (∀ caseId ds o t e c, generate_chain_hash caseId ds o t e c =
      sha256Hex (utf8Bytes (chainContent caseId ds o t e c))) ∧
    (∀ caseId ds ds' o t e c, (∀ s ∈ ds, s.length = 64) →
      (∀ s ∈ ds', s.length = 64) → ds ≠ ds' →
      chainContent caseId ds o t e c ≠ chainContent caseId ds' o t e c) ∧
    (∀ caseId ds o o' t e c, o.getD [] ≠ o'.getD [] →
      chainContent caseId ds o t e c ≠ chainContent caseId ds o' t e c) ∧
    (∀ caseId ds o t t' e c, t.getD [] ≠ t'.getD [] →
      chainContent caseId ds o t e c ≠ chainContent caseId ds o t' e c) ∧
    (∀ caseId ds o t e e' c, e.getD [] ≠ e'.getD [] →
      chainContent caseId ds o t e c ≠ chainContent caseId ds o t e' c) := by
  refine ⟨fun _ _ _ _ _ _ => rfl, ?_, ?_, ?_, ?_⟩
  · intro caseId ds ds' o t e c h64 h64' hne heq
    unfold chainContent at heq
    have h1 := List.append_cancel_left heq
    have h2 := List.append_cancel_right h1
    exact hne (flatten64_inj ds ds' h64 h64' h2)
  · intro caseId ds o o' t e c hne heq
    unfold chainContent at heq
    have h1 := List.append_cancel_left (List.append_cancel_left heq)
    exact hne (List.append_cancel_right h1)
  · intro caseId ds o t t' e c hne heq
    unfold chainContent at heq
    have h1 := List.append_cancel_left
      (List.append_cancel_left (List.append_cancel_left heq))
    exact hne (List.append_cancel_right h1)
  · intro caseId ds o t e e' c hne heq
    unfold chainContent at heq
    have h1 := List.append_cancel_left (List.append_cancel_left
      (List.append_cancel_left (List.append_cancel_left heq)))
    exact hne (List.append_cancel_right h1)

/-- C7 witness: the amended theorem applied at concrete inputs — adding one
well-formed digest changes the content, and changing the rendered original
text changes the content. -/
theorem C7_chain_hash_witness :
    chainContent "c".toList [digest64] none none none none ≠
      chainContent "c".toList [] none none none none ∧
    chainContent "c".toList [] (some "a".toList) none none none ≠
      chainContent "c".toList [] none none none none :=
  ⟨C7_chain_hash_amended.2.1 "c".toList [digest64] [] none none none none
      (by decide) (by decide) (by decide),
   C7_chain_hash_amended.2.2.1 "c".toList [] (some "a".toList) none
      none none none (by decide)⟩

/-- C8 counterexample: an evidence asset whose textual content is the empty
string is *not* hashed — `generate_hash` leaves its digest unset and `save`
stores it without a digest, because `elif self.derived_text:` is false for
the empty string, refuting the claim that empty text still receives a
digest. -/
theorem C8_empty_text_not_hashed :
    evidence_generate_hash none (some []) none = none ∧
    (evidence_save { derived_text := some [] }).sha256_digest = none :=
  ⟨rfl, rfl⟩

/-- C8 amended: evidence hashing is idempotent — recomputation over the same
file bytes, or over the same non-empty derived text, yields the same digest
regardless of the digest already stored, and `save` never replaces an
already-set digest — but an asset whose textual content is the empty string
is skipped rather than hashed: its digest field is passed through
unchanged. -/
theorem C8_evidence_hash_amended :
    (∀ bytes dt d d', evidence_generate_hash (some bytes) dt d =
      evidence_generate_hash (some bytes) dt d') ∧
    (∀ t d d', t ≠ [] → evidence_generate_hash none (some t) d =
      evidence_generate_hash none (some t) d') ∧
    (∀ a : EvidenceAsset, a.sha256_digest ≠ none → a.sha256_digest ≠ some [] →
      evidence_save a = a) ∧
    (∀ d, evidence_generate_hash none (some []) d = d) ∧
    (∀ d, evidence_generate_hash none none d = d) := by
  refine ⟨fun _ _ _ _ => rfl, ?_, ?_, fun _ => rfl, fun _ => rfl⟩
  · intro t d d' ht
    cases t with
    | nil => exact absurd rfl ht
    | cons a s => rfl
  · intro a h1 h2
    unfold evidence_save
    rw [if_neg (not_or.mpr ⟨h1, h2⟩)]

/-- C8 witness: the amended theorem applied at concrete inputs — hashing the
text `"x"` ignores the stored digest, and saving an asset with digest `"d"`
leaves it unchanged. -/
theorem C8_evidence_hash_witness :
    evidence_generate_hash none (some "x".toList) none =
      evidence_generate_hash none (some "x".toList) (some "y".toList) ∧
    evidence_save { sha256_digest := some "d".toList } =
      { sha256_digest := some "d".toList } :=
  ⟨C8_evidence_hash_amended.2.1 "x".toList none (some "y".toList) (by decide),
   C8_evidence_hash_amended.2.2.1 { sha256_digest := some "d".toList }
      (by decide) (by decide)⟩

/-- C9.  Sentinel fail-open: for every bundle and every exception message
from the upstream model call (or from JSON decoding), the embedded
`SentinelAgent.process` — total by construction, so nothing propagates to
the orchestrator — returns the bundle with a `safety_check` artifact that
records the error and sets `is_safe` to true, leaving the message and
workflow state untouched. -/
theorem C9_sentinel_fail_open (b : ContextBundle) (e : Str) :
    sentinel_process (.error e) b =
      add_artifact b "safety_check".toList
        (.obj [("error".toList, .str e), ("is_safe".toList, .bool true)]) ∧
    jGet (sentinel_process (.error e) b).artifacts "safety_check".toList =
      some (.obj [("error".toList, .str e), ("is_safe".toList, .bool true)]) ∧
    (match jGet (sentinel_process (.error e) b).artifacts
        "safety_check".toList with
      | some (.obj f) => jGet f "is_safe".toList
      | _ => none) = some (.bool true) ∧
    (sentinel_process (.error e) b).workflow_state = b.workflow_state ∧
    (sentinel_process (.error e) b).user_message = b.user_message := by
  have hkey : jGet (sentinel_process (.error e) b).artifacts
      "safety_check".toList =
      some (.obj [("error".toList, .str e), ("is_safe".toList, .bool true)]) :=
    jGet_setKey b.artifacts "safety_check".toList _
  refine ⟨rfl, hkey, ?_, rfl, rfl⟩
  rw [hkey]
  rfl

/-- C10.  `check_safe_word` returns true exactly when the uppercased,
stripped text contains one of the six fixed phrases as a contiguous
substring — so `"unstoppable"`, which merely contains `STOP` inside a longer
word, triggers it — and it returns false on empty (or missing, which reaches
the guard the same way) text. -/
theorem C10_check_safe_word_characterization :
    (∀ text : Str, check_safe_word text = true ↔
      (¬text.isEmpty = true ∧ ∃ w ∈ SAFE_WORDS, ∃ u v,
        u ++ (w ++ v) = pyStrip (pyUpper text))) ∧
    check_safe_word "unstoppable".toList = true ∧
    check_safe_word [] = false := by
  refine ⟨?_, by decide, rfl⟩
  intro text
  unfold check_safe_word
  by_cases h : text.isEmpty
  · simp [h]
  · simp only [h, Bool.false_eq_true, if_false, List.any_eq_true,
      not_false_iff, true_and]
    constructor
    · rintro ⟨w, hw, hc⟩
      exact ⟨w, hw, (containsSub_iff w _).mp hc⟩
    · rintro ⟨w, hw, hex⟩
      exact ⟨w, hw, (containsSub_iff w _).mpr hex⟩

end Imara
